import Mathlib

/-!
Shallow embedding of the forecast_api repository (src/api/routes/weather.py and
src/core/connection.py), together with theorems checking the natural-language
specification against it.

Python exceptions are modelled by the `Exc` inductive and exception-raising
computations by `Except Exc`.  Python dictionaries returned by the database
layer are modelled as structures of `Option` fields (`None`/absent keys are
`none`); `dict.get` is field access, mandatory `dict[...]` access raises a
`KeyError` when the field is `none`.  Python truthiness of optional strings is
`pyTruthy`.  The outside world (HTTP calls made by the regeneration trigger,
the database driver used by `test_connection`) is modelled by explicit
environment records whose fields give the outcome of each outbound call, so
theorems quantify over every possible behaviour of the collaborators.
-/

/-- The exception types that appear in the code: `ForecastNotFoundError`,
`DatabaseConnectionError` (both from `core.exceptions`), `KeyError` from
mandatory dictionary access, and a catch-all for any other Python exception. -/
inductive Exc where
  | forecastNotFound (city : String)
  | dbConnection (msg : String)
  | keyError (key : String)
  | other (msg : String)
deriving DecidableEq, Repr

/-- Model of Python `str(e)` for the exceptions above. -/
def excStr : Exc → String
  | .forecastNotFound c => "No valid forecast found for city: " ++ c
  | .dbConnection m => m
  | .keyError k => "\x27" ++ k ++ "\x27"
  | .other m => m

/-- Python truthiness of an optional string: `None` and `""` are falsy. -/
def pyTruthy : Option String → Bool
  | none => false
  | some s => !(s = "")

/-- Python `x or d` for an optional string `x`: the string when truthy, else `d`. -/
def pyOr (x : Option String) (d : String) : String :=
  match x with
  | none => d
  | some s => if s = "" then d else s

/-- Mandatory dictionary access `result[key]`: raises `KeyError` when absent. -/
def pyGet {α : Type} (key : String) (o : Option α) : Except Exc α :=
  match o with
  | some v => Except.ok v
  | none => Except.error (Exc.keyError key)

/-- Python tuple indexing `row[i]`: raises `IndexError` when out of range. -/
def pyIndex {α : Type} (r : List α) (i : Nat) : Except Exc α :=
  match r.get? i with
  | some v => Except.ok v
  | none => Except.error (Exc.other "IndexError: tuple index out of range")

/-! ## Regeneration trigger (`trigger_forecast_preparation` in weather.py) -/

/-- The slice of `config.settings` read by the trigger. -/
structure AgentSettings where
  WEATHER_AGENT_URL : Option String

/-- The `user_id` constant used inside `make_api_calls`. -/
def user_id : String := "forecast_api"

/-- `session_id = f"forecast_api_{city}_{language or 'default'}"`. -/
def session_id (city : String) (language : Option String) : String :=
  "forecast_api_" ++ city ++ "_" ++ pyOr language "default"

/-- `language_spec = f" in {language}" if language else ""`. -/
def language_spec (language : Option String) : String :=
  match language with
  | none => ""
  | some l => if l = "" then "" else " in " ++ l

/-- `prompt = f"What is the current weather condition in {city}{language_spec}"`. -/
def forecast_prompt (city : String) (language : Option String) : String :=
  "What is the current weather condition in " ++ city ++ language_spec language

/-- `session_url = f"{WEATHER_AGENT_URL}/apps/weather_agent/users/{user_id}/sessions/{session_id}"`. -/
def session_url (agentUrl sid : String) : String :=
  agentUrl ++ "/apps/weather_agent/users/" ++ user_id ++ "/sessions/" ++ sid

structure SessionRequest where
  url : String
  body : String
deriving DecidableEq, Repr

structure MessagePart where
  text : String
deriving DecidableEq, Repr

structure NewMessage where
  role : String
  parts : List MessagePart
deriving DecidableEq, Repr

/-- The JSON body posted to `/run_sse`. -/
structure MessagePayload where
  appName : String
  userId : String
  sessionId : String
  newMessage : NewMessage
  streaming : Bool
deriving DecidableEq, Repr

structure MessageRequest where
  url : String
  payload : MessagePayload
deriving DecidableEq, Repr

/-- `message_payload` as built in `make_api_calls` (weather.py lines 70-79). -/
def message_payload (city : String) (language : Option String) : MessagePayload :=
  { appName := "weather_agent"
    userId := user_id
    sessionId := session_id city language
    newMessage := { role := "user", parts := [{ text := forecast_prompt city language }] }
    streaming := false }

/-- An outbound HTTP POST made by the trigger. -/
inductive Dispatched where
  | session (r : SessionRequest)
  | message (r : MessageRequest)
deriving DecidableEq, Repr

/-- Environment for the trigger: the outcome of each outbound POST
(`Except.error` covers connect errors, timeouts and `raise_for_status` on a
non-2xx response) and the outcome of `threading.Thread(...).start()`. -/
structure HttpEnv where
  post : Dispatched → Except Exc Unit
  threadStart : Except Exc Unit

/-- What a run of `make_api_calls` leaves behind: the POSTs it dispatched and
the warnings it logged. -/
structure ApiLog where
  dispatched : List Dispatched
  warnings : List String
deriving Repr

/-- The inner `make_api_calls` closure (weather.py lines 47-93): builds the
session and message requests, posts them in order, and catches every
exception, logging a warning instead of raising. -/
def make_api_calls (env : HttpEnv) (agentUrl city : String) (language : Option String) :
    Except Exc ApiLog :=
  let sid := session_id city language
  let sreq : SessionRequest := { url := session_url agentUrl sid, body := "\x7b\x7d" }
  match env.post (.session sreq) with
  | .error e =>
    Except.ok { dispatched := [.session sreq]
                warnings := ["Failed to trigger forecast for " ++ city ++ ": " ++ excStr e] }
  | .ok _ =>
    let mreq : MessageRequest := { url := agentUrl ++ "/run_sse"
                                   payload := message_payload city language }
    match env.post (.message mreq) with
    | .error e =>
      Except.ok { dispatched := [.session sreq, .message mreq]
                  warnings := ["Failed to trigger forecast for " ++ city ++ ": " ++ excStr e] }
    | .ok _ =>
      Except.ok { dispatched := [.session sreq, .message mreq], warnings := [] }

/-- Result of `trigger_forecast_preparation`: the background run of
`make_api_calls` (absent when no thread was started) and the warnings logged
on the caller's thread. -/
structure TriggerResult where
  background : Option (Except Exc ApiLog)
  warnings : List String
deriving Repr

/-- `trigger_forecast_preparation` (weather.py lines 31-101): no-op when
`WEATHER_AGENT_URL` is falsy; otherwise starts a daemon thread running
`make_api_calls`, catching any exception from thread creation/start. -/
def trigger_forecast_preparation (env : HttpEnv) (s : AgentSettings) (city : String)
    (language : Option String) : Except Exc TriggerResult :=
  if pyTruthy s.WEATHER_AGENT_URL = false then
    Except.ok { background := none
                warnings := ["WEATHER_AGENT_URL not configured, skipping forecast preparation"] }
  else
    match env.threadStart with
    | .error e =>
      Except.ok { background := none
                  warnings := ["Failed to start forecast preparation for " ++ city ++ ": "
                                ++ excStr e] }
    | .ok _ =>
      Except.ok { background :=
                    some (make_api_calls env (s.WEATHER_AGENT_URL.getD "") city language)
                  warnings := [] }

/-! ## Store read results (dicts returned by `core.database`) -/

/-- The dictionary returned by `get_cached_forecast`, with exactly the keys the
handler reads; absent keys are `none`. -/
structure StoreDict where
  status : Option String
  message : Option String
  cached : Option Bool
  forecast_text : Option String
  audio_data : Option String
  forecast_at : Option String
  expires_at : Option String
  age_seconds : Option Int
  encoding : Option String
  language : Option String
  locale : Option String
  sizes : Option String
deriving Repr

/-- The `forecast` object of a 200 response of `get_latest_forecast`. -/
structure ForecastPayload where
  text : String
  audio_base64 : String
  forecast_at : String
  expires_at : String
  age_seconds : Int
  encoding : String
  language : Option String
  locale : Option String
  sizes : String
deriving Repr

/-- The 200 response body of `get_latest_forecast`. -/
structure WeatherSuccess where
  status : String
  city : String
  forecast : ForecastPayload
deriving Repr

/-! ## `get_latest_forecast` (weather.py lines 115-158) -/

/-- The `try` block of `get_latest_forecast`: read the store result, raise
`DatabaseConnectionError` on `status == "error"`, raise
`ForecastNotFoundError` when `cached` is falsy, else build the 200 body
(mandatory key accesses may raise `KeyError`).  `read` is the outcome of
`get_cached_forecast(city, language)`. -/
def latest_body (read : Except Exc StoreDict) (city : String) : Except Exc WeatherSuccess :=
  match read with
  | .error e => Except.error e
  | .ok result =>
    if result.status = some "error" then
      Except.error (Exc.dbConnection (result.message.getD "Database error"))
    else if result.cached.getD false = false then
      Except.error (Exc.forecastNotFound city)
    else
      (pyGet "forecast_text" result.forecast_text).bind fun text =>
      (pyGet "audio_data" result.audio_data).bind fun audio =>
      (pyGet "forecast_at" result.forecast_at).bind fun fat =>
      (pyGet "expires_at" result.expires_at).bind fun eat =>
      (pyGet "age_seconds" result.age_seconds).bind fun age =>
      (pyGet "encoding" result.encoding).bind fun enc =>
      (pyGet "sizes" result.sizes).bind fun sz =>
      Except.ok { status := "success"
                  city := city.toLower
                  forecast := { text := text, audio_base64 := audio, forecast_at := fat
                                expires_at := eat, age_seconds := age, encoding := enc
                                language := result.language, locale := result.locale
                                sizes := sz } }

/-- A full run of the `get_latest_forecast` handler: the response/raised
exception, and the list of `trigger_forecast_preparation(city, language)`
invocations it made. -/
structure LatestRun where
  outcome : Except Exc WeatherSuccess
  triggers : List (String × Option String)
deriving Repr

/-- `get_latest_forecast` with its `except` clauses: `ForecastNotFoundError`
fires the trigger once then re-raises; `DatabaseConnectionError` re-raises;
any other exception is logged and re-raised as-is. -/
def get_latest_forecast (env : HttpEnv) (s : AgentSettings) (read : Except Exc StoreDict)
    (city : String) (language : Option String) : LatestRun :=
  match latest_body read city with
  | .ok resp => { outcome := Except.ok resp, triggers := [] }
  | .error (.forecastNotFound c) =>
    match trigger_forecast_preparation env s city language with
    | .ok _ => { outcome := Except.error (Exc.forecastNotFound c)
                 triggers := [(city, language)] }
    | .error e2 => { outcome := Except.error e2, triggers := [(city, language)] }
  | .error (.dbConnection m) => { outcome := Except.error (Exc.dbConnection m), triggers := [] }
  | .error e => { outcome := Except.error e, triggers := [] }

/-! ## `get_forecast_history` (weather.py lines 171-198) -/

/-- One forecast dict inside the `forecasts` list returned by
`list_forecasts`; the handler only reads `f.get("expired", False)`, the rest
is carried opaquely. -/
structure HistoryEntry where
  expired : Option Bool
  payload : String
deriving DecidableEq, Repr

/-- The dictionary returned by `list_forecasts`. -/
structure StoreListDict where
  status : Option String
  message : Option String
  forecasts : Option (List HistoryEntry)
deriving Repr

/-- The 200 response body of `get_forecast_history`. -/
structure HistoryResponse where
  status : String
  city : String
  count : Nat
  forecasts : List HistoryEntry
deriving Repr

/-- The `try` block of `get_forecast_history`: raise on `status == "error"`,
else filter out expired entries unless `include_expired`, and answer with the
filtered list and its length.  `read` is the outcome of
`list_forecasts(city=city, limit=limit)`. -/
def history_body (read : Except Exc StoreListDict) (city : String)
    (include_expired : Bool) : Except Exc HistoryResponse :=
  match read with
  | .error e => Except.error e
  | .ok result =>
    if result.status = some "error" then
      Except.error (Exc.dbConnection (result.message.getD "Database error"))
    else
      let forecasts0 := result.forecasts.getD []
      let forecasts :=
        if include_expired = false then
          forecasts0.filter (fun f => !(f.expired.getD false))
        else forecasts0
      Except.ok { status := "success", city := city.toLower
                  count := forecasts.length, forecasts := forecasts }

/-- `get_forecast_history` with its `except` clauses: `DatabaseConnectionError`
re-raises; any other exception is wrapped into a new
`DatabaseConnectionError("Unexpected error: ...")`.  The `limit` argument is
forwarded to `list_forecasts` (whose outcome is `read`). -/
def get_forecast_history (read : Except Exc StoreListDict) (city : String) (limit : Int)
    (include_expired : Bool) : Except Exc HistoryResponse :=
  match history_body read city include_expired with
  | .ok r => Except.ok r
  | .error (.dbConnection m) => Except.error (Exc.dbConnection m)
  | .error e => Except.error (Exc.dbConnection ("Unexpected error: " ++ excStr e))

/-! ## Freshness policy

The store accessor `core/database.py` (`get_cached_forecast`,
`list_forecasts`) is not part of the two source files, so the freshness
computation it performs is modelled from the spec. -/

inductive Freshness where
  | Fresh
  | Expired
deriving DecidableEq, Repr

/-- Modelled from the spec: `core/database.py` is missing from the sources;
spec section 3 defines the derived field `expires_at = forecast_at + TTL`.
Times are integer epoch seconds. -/
def expires_at_of (forecast_at ttl : Int) : Int := forecast_at + ttl

/-- Modelled from the spec: `core/database.py` is missing from the sources;
spec section 3 defines the derived field `expired = now > expires_at`. -/
def is_expired (forecast_at now ttl : Int) : Bool :=
  decide (expires_at_of forecast_at ttl < now)

/-- Modelled from the spec: `core/database.py` is missing from the sources;
spec section 4.1 gives `classify(forecast_at, now, ttl) -> {Fresh, Expired}`,
a record being servable exactly when it is not expired. -/
def classify (forecast_at now ttl : Int) : Freshness :=
  if is_expired forecast_at now ttl then Freshness.Expired else Freshness.Fresh

/-- Modelled from the spec: `core/database.py` (`list_forecasts`) is missing
from the sources; spec section 4.2 says `list_history(city, limit)` returns
at most `limit` entries, so the dict it returns satisfies this bound. -/
def list_forecasts_contract (limit : Int) (d : StoreListDict) : Prop :=
  ((d.forecasts.getD []).length : Int) ≤ limit

/-! ## `core/connection.py` -/

/-- The dictionary returned by `test_connection`; keys absent from one of the
two return dicts are `none`. -/
structure ConnStatus where
  status : String
  connected : Bool
  inst : Option String
  database : Option String
  version : Option String
  forecasts_table_exists : Option Bool
  error : Option String
deriving Repr

/-- Environment for `test_connection`: the outcome of `get_connection()` (a
connection handle), of each `cursor.execute`/`fetchone`, and of the two
`close` calls.  A fetched row is `none` for Python `None`, otherwise the list
of its column values. -/
structure DbEnv where
  connect : Except Exc Nat
  execVersion : Except Exc Unit
  fetchVersion : Except Exc (Option (List String))
  execTable : Except Exc Unit
  fetchTable : Except Exc (Option (List Bool))
  closeCursor : Except Exc Unit
  closeConn : Except Exc Unit

/-- The `try` block of `test_connection` (connection.py lines 105-124): the
data it computes before building the success dict.  `version` is
`result[0] if result else "Unknown"`; `table_exists` is `cursor.fetchone()[0]`,
which raises a `TypeError` when the row is `None`. -/
def test_connection_body (env : DbEnv) : Except Exc (String × Bool) :=
  (env.connect).bind fun _conn =>
  (env.execVersion).bind fun _ =>
  (env.fetchVersion).bind fun row =>
  (match row with
   | none => Except.ok "Unknown"
   | some r => if r.isEmpty then Except.ok "Unknown" else pyIndex r 0).bind fun version =>
  (env.execTable).bind fun _ =>
  (env.fetchTable).bind fun trow =>
  (match trow with
   | none => Except.error (Exc.other "TypeError: NoneType object is not subscriptable")
   | some r => pyIndex r 0).bind fun tableExists =>
  (env.closeCursor).bind fun _ =>
  (env.closeConn).bind fun _ =>
  Except.ok (version, tableExists)

/-- `test_connection` (connection.py lines 98-140): wraps the body in
`try/except Exception`, returning the success dict on success and the error
dict (with `str(e)`) on any exception.  `instName` is
`INSTANCE_CONNECTION_NAME`, `db` is `settings.CLOUD_SQL_DB`. -/
def test_connection (env : DbEnv) (instName : Option String) (db : Option String) :
    ConnStatus :=
  match test_connection_body env with
  | .ok (version, tableExists) =>
    { status := "success", connected := true, inst := instName, database := db
      version := some version, forecasts_table_exists := some tableExists, error := none }
  | .error e =>
    { status := "error", connected := false, error := some (excStr e)
      inst := some (pyOr instName "Not configured"), database := none
      version := none, forecasts_table_exists := none }

/-- The module-level global `_connector` together with an allocator for fresh
`Connector()` instances: connectors are identified by the `Nat` handed out at
creation, and `nextId` is the next unused identity. -/
structure ConnectorGlobals where
  connector : Option Nat
  nextId : Nat
deriving DecidableEq, Repr

/-- `get_connector` (connection.py lines 23-33): return the global connector,
creating it first when it is `None`. -/
def get_connector (g : ConnectorGlobals) : Nat × ConnectorGlobals :=
  match g.connector with
  | some c => (c, g)
  | none => (g.nextId, { connector := some g.nextId, nextId := g.nextId + 1 })

/-- `close_connector` (connection.py lines 86-95): when a connector exists,
close it and reset the global to `None`; otherwise do nothing. -/
def close_connector (g : ConnectorGlobals) : ConnectorGlobals :=
  match g.connector with
  | some _ => { connector := none, nextId := g.nextId }
  | none => g

/-! ## Definitions taken from the spec's words, for comparison -/

/-- Modelled from the spec (section 4.3), for comparison with
`forecast_prompt`: the prompt form
`"current weather condition in <city>[ in <language>]"`. -/
def spec_prompt_form (city : String) (language : Option String) : String :=
  "current weather condition in " ++ city ++
    (match language with
     | none => ""
     | some l => " in " ++ l)

/-! ## Shared helper lemmas -/

/-- `make_api_calls` catches every exception: whatever the HTTP environment
does, it returns `Except.ok`. -/
theorem make_api_calls_isOk (env : HttpEnv) (agentUrl city : String)
    (language : Option String) :
    ∃ log, make_api_calls env agentUrl city language = Except.ok log := by
  unfold make_api_calls
  dsimp only
  split
  · exact ⟨_, rfl⟩
  · split
    · exact ⟨_, rfl⟩
    · exact ⟨_, rfl⟩

/-- `trigger_forecast_preparation` catches every exception on the caller's
thread: it always returns `Except.ok`. -/
theorem trigger_isOk (env : HttpEnv) (s : AgentSettings) (city : String)
    (language : Option String) :
    ∃ r, trigger_forecast_preparation env s city language = Except.ok r := by
  unfold trigger_forecast_preparation
  split
  · exact ⟨_, rfl⟩
  · split
    · exact ⟨_, rfl⟩
    · exact ⟨_, rfl⟩

/-- A trigger invocation is fully contained when it neither raises to the
caller nor lets its background `make_api_calls` run raise. -/
def trigger_run_ok : Except Exc TriggerResult → Bool
  | .error _ => false
  | .ok r =>
    match r.background with
    | none => true
    | some (.error _) => false
    | some (.ok _) => true

/-- `classify` answers `Fresh` exactly when the record's age is at most the
TTL. -/
theorem classify_eq_fresh_iff (forecast_at now ttl : Int) :
    classify forecast_at now ttl = Freshness.Fresh ↔ now - forecast_at ≤ ttl := by
  unfold classify is_expired expires_at_of
  split
  · rename_i h
    simp only [decide_eq_true_eq] at h
    constructor
    · intro hc
      exact absurd hc (by simp)
    · intro hc
      omega
  · rename_i h
    simp only [decide_eq_true_eq] at h
    constructor
    · intro _
      omega
    · intro _
      rfl

/-! ## Claim theorems -/

/-- C1: when the store read returns a dict whose `status` is not `"error"`
and whose `cached` flag is falsy, `get_latest_forecast` invokes the
regeneration trigger exactly once, with that same city and language, and
still terminates by raising the not-found error, whatever the trigger's
environment and settings do. -/
theorem get_latest_forecast_miss_triggers_once (env : HttpEnv) (s : AgentSettings)
    (d : StoreDict) (city : String) (language : Option String)
    (hstatus : ¬ d.status = some "error") (hcached : d.cached.getD false = false) :
    get_latest_forecast env s (Except.ok d) city language =
      { outcome := Except.error (Exc.forecastNotFound city)
        triggers := [(city, language)] } := by
  obtain ⟨r, hr⟩ := trigger_isOk env s city language
  unfold get_latest_forecast latest_body
  simp [hstatus, hcached, hr]

theorem get_latest_forecast_miss_triggers_once_witness :
    get_latest_forecast { post := fun _ => Except.ok (), threadStart := Except.ok () }
        { WEATHER_AGENT_URL := some "http://agent" }
        (Except.ok { status := none, message := none, cached := some false
                     forecast_text := none, audio_data := none, forecast_at := none
                     expires_at := none, age_seconds := none, encoding := none
                     language := none, locale := none, sizes := none })
        "Tokyo" none =
      { outcome := Except.error (Exc.forecastNotFound "Tokyo")
        triggers := [("Tokyo", none)] } :=
  get_latest_forecast_miss_triggers_once _ _ _ "Tokyo" none (by simp) (by simp)

/-- C2: when the store read returns a dict whose `status` is `"error"`,
`get_latest_forecast` raises the connection error built from the dict's
message and never invokes the trigger. -/
theorem get_latest_forecast_store_error_no_trigger (env : HttpEnv) (s : AgentSettings)
    (d : StoreDict) (city : String) (language : Option String)
    (hstatus : d.status = some "error") :
    get_latest_forecast env s (Except.ok d) city language =
      { outcome := Except.error (Exc.dbConnection (d.message.getD "Database error"))
        triggers := [] } := by
  unfold get_latest_forecast latest_body
  simp [hstatus]

theorem get_latest_forecast_store_error_no_trigger_witness :
    get_latest_forecast { post := fun _ => Except.ok (), threadStart := Except.ok () }
        { WEATHER_AGENT_URL := some "http://agent" }
        (Except.ok { status := some "error", message := some "db down", cached := none
                     forecast_text := none, audio_data := none, forecast_at := none
                     expires_at := none, age_seconds := none, encoding := none
                     language := none, locale := none, sizes := none })
        "Paris" none =
      { outcome := Except.error (Exc.dbConnection "db down"), triggers := [] } :=
  get_latest_forecast_store_error_no_trigger _ _ _ "Paris" none rfl

/-- C3: for every city, language, settings and environment behaviour,
`trigger_forecast_preparation` returns normally to its caller and its
background `make_api_calls` run also completes without raising: every failure
of thread start or of the outbound session-creation and message-submission
calls is caught and turned into a logged warning. -/
theorem trigger_forecast_preparation_never_raises (env : HttpEnv) (s : AgentSettings)
    (city : String) (language : Option String) :
    trigger_run_ok (trigger_forecast_preparation env s city language) = true := by
  obtain ⟨log, hlog⟩ := make_api_calls_isOk env (s.WEATHER_AGENT_URL.getD "") city language
  unfold trigger_forecast_preparation
  split
  · rfl
  · cases h : env.threadStart with
    | error e => simp [trigger_run_ok]
    | ok u => simp [trigger_run_ok, hlog]

/-- C4: the freshness policy classifies a record as Fresh exactly when
`now - forecast_at ≤ ttl`, and in particular the boundary case
`now - forecast_at = ttl` is Fresh (the TTL is inclusive). -/
theorem freshness_policy_inclusive_ttl (forecast_at now ttl : Int) :
    (classify forecast_at now ttl = Freshness.Fresh ↔ now - forecast_at ≤ ttl) ∧
    (now - forecast_at = ttl → classify forecast_at now ttl = Freshness.Fresh) :=
  ⟨classify_eq_fresh_iff forecast_at now ttl,
   fun h => (classify_eq_fresh_iff forecast_at now ttl).mpr (by omega)⟩

theorem freshness_policy_inclusive_ttl_witness :
    (classify 0 60 60 = Freshness.Fresh ↔ (60 : Int) - 0 ≤ 60) ∧
    ((60 : Int) - 0 = 60 → classify 0 60 60 = Freshness.Fresh) :=
  freshness_policy_inclusive_ttl 0 60 60

/-- C5 counterexample: for `get_forecast_history`, an uncategorized exception
raised by the store read is not re-raised with its original type; it is
converted into a `DatabaseConnectionError`, contradicting the claim that both
endpoints re-raise it as-is. -/
theorem history_converts_unexpected_error :
    get_forecast_history (Except.error (Exc.other "boom")) "Paris" 10 false =
      Except.error (Exc.dbConnection "Unexpected error: boom") ∧
    Exc.dbConnection "Unexpected error: boom" ≠ Exc.other "boom" := by
  constructor
  · rfl
  · simp

/-- C5 (amended): an exception that is neither the not-found error nor the
connection error is re-raised as-is by `get_latest_forecast` (which also does
not fire the trigger for it), but `get_forecast_history` wraps it into a new
`DatabaseConnectionError` whose message is `"Unexpected error: " ++ str(e)`. -/
theorem unexpected_error_latest_reraised_history_wrapped (env : HttpEnv)
    (s : AgentSettings) (city : String) (language : Option String) (limit : Int)
    (include_expired : Bool) (e : Exc)
    (hnf : ∀ c, e ≠ Exc.forecastNotFound c) (hdb : ∀ m, e ≠ Exc.dbConnection m) :
    get_latest_forecast env s (Except.error e) city language =
      { outcome := Except.error e, triggers := [] } ∧
    get_forecast_history (Except.error e) city limit include_expired =
      Except.error (Exc.dbConnection ("Unexpected error: " ++ excStr e)) := by
  cases e with
  | forecastNotFound c => exact absurd rfl (hnf c)
  | dbConnection m => exact absurd rfl (hdb m)
  | keyError k => exact ⟨rfl, rfl⟩
  | other m => exact ⟨rfl, rfl⟩

theorem unexpected_error_latest_reraised_history_wrapped_witness :
    get_latest_forecast { post := fun _ => Except.ok (), threadStart := Except.ok () }
        { WEATHER_AGENT_URL := some "http://agent" }
        (Except.error (Exc.other "boom")) "Paris" none =
      { outcome := Except.error (Exc.other "boom"), triggers := [] } ∧
    get_forecast_history (Except.error (Exc.other "boom")) "Paris" 10 false =
      Except.error (Exc.dbConnection "Unexpected error: boom") :=
  unexpected_error_latest_reraised_history_wrapped _ _ "Paris" none 10 false
    (Exc.other "boom") (fun c => by simp) (fun m => by simp)

/-- The code's prompt equals `"What is the "` followed by the spec's prompt
form, for any tail after the city. -/
theorem prompt_eq_spec_form (city tail : String) :
    "What is the current weather condition in " ++ city ++ tail =
      "What is the " ++ ("current weather condition in " ++ city ++ tail) := by
  rw [String.append_assoc "What is the current weather condition in " city tail,
    String.append_assoc "current weather condition in " city tail,
    ← String.append_assoc "What is the " "current weather condition in " (city ++ tail)]
  rfl

/-- C6: the generation request is deterministic in `(city, language)` — equal
arguments give equal session keys and equal payloads — the session key is
exactly `forecast_api_<city>_<language-or-default>`, and for an absent or
non-empty language the prompt is the spec's form
`"current weather condition in <city>[ in <language>]"` preceded by
`"What is the "`. -/
theorem trigger_request_deterministic (city : String) (l1 l2 : Option String)
    (h : l1 = l2) :
    (session_id city l1 = session_id city l2 ∧
      message_payload city l1 = message_payload city l2) ∧
    session_id city l1 = "forecast_api_" ++ city ++ "_" ++ pyOr l1 "default" ∧
    ((l1 = none ∨ ∃ l, l1 = some l ∧ l ≠ "") →
      forecast_prompt city l1 = "What is the " ++ spec_prompt_form city l1) := by
  subst h
  refine ⟨⟨rfl, rfl⟩, rfl, ?_⟩
  rintro (rfl | ⟨l, rfl, hl⟩)
  · simp only [forecast_prompt, spec_prompt_form, language_spec]
    exact prompt_eq_spec_form city ""
  · simp only [forecast_prompt, spec_prompt_form, language_spec]
    rw [if_neg hl]
    exact prompt_eq_spec_form city (" in " ++ l)

theorem trigger_request_deterministic_witness :
    (session_id "Paris" (some "fr") = session_id "Paris" (some "fr") ∧
      message_payload "Paris" (some "fr") = message_payload "Paris" (some "fr")) ∧
    session_id "Paris" (some "fr") =
      "forecast_api_" ++ "Paris" ++ "_" ++ pyOr (some "fr") "default" ∧
    ((some "fr" = (none : Option String) ∨ ∃ l, some "fr" = some l ∧ l ≠ "") →
      forecast_prompt "Paris" (some "fr") =
        "What is the " ++ spec_prompt_form "Paris" (some "fr")) :=
  trigger_request_deterministic "Paris" (some "fr") (some "fr") rfl

/-- C7: a successful history response has `count` equal to the length of the
returned sequence and at most `limit` entries (given the store contract on
`list_forecasts`); with `include_expired = false` the returned sequence is
exactly the store's sequence with expired entries removed, in order, and no
returned entry is expired. -/
theorem get_forecast_history_filtering (d : StoreListDict) (city : String) (limit : Int)
    (include_expired : Bool) (hstatus : ¬ d.status = some "error")
    (hcontract : list_forecasts_contract limit d) :
    ∃ r, get_forecast_history (Except.ok d) city limit include_expired = Except.ok r ∧
      r.count = r.forecasts.length ∧
      (r.forecasts.length : Int) ≤ limit ∧
      (include_expired = false →
        r.forecasts = (d.forecasts.getD []).filter (fun f => !(f.expired.getD false)) ∧
        ∀ f ∈ r.forecasts, f.expired.getD false = false) := by
  unfold list_forecasts_contract at hcontract
  cases include_expired with
  | false =>
    refine ⟨{ status := "success", city := city.toLower
              count := ((d.forecasts.getD []).filter
                (fun f => !(f.expired.getD false))).length
              forecasts := (d.forecasts.getD []).filter
                (fun f => !(f.expired.getD false)) }, ?_, rfl, ?_, ?_⟩
    · unfold get_forecast_history history_body
      simp [hstatus]
    · calc (((d.forecasts.getD []).filter (fun f => !(f.expired.getD false))).length : Int)
          ≤ ((d.forecasts.getD []).length : Int) := by
            exact_mod_cast List.length_filter_le _ _
        _ ≤ limit := hcontract
    · intro _
      refine ⟨rfl, ?_⟩
      intro f hf
      have hmem := List.mem_filter.mp hf
      simpa using hmem.2
  | true =>
    refine ⟨{ status := "success", city := city.toLower
              count := (d.forecasts.getD []).length
              forecasts := d.forecasts.getD [] }, ?_, rfl, hcontract, ?_⟩
    · unfold get_forecast_history history_body
      simp [hstatus]
    · intro h
      exact absurd h (by simp)

theorem get_forecast_history_filtering_witness :
    ∃ r, get_forecast_history
        (Except.ok { status := none, message := none
                     forecasts := some [{ expired := some false, payload := "a" },
                                        { expired := some true, payload := "b" },
                                        { expired := none, payload := "c" }] })
        "Paris" 10 false = Except.ok r ∧
      r.count = r.forecasts.length ∧
      (r.forecasts.length : Int) ≤ 10 ∧
      (false = false →
        r.forecasts = ((some [{ expired := some false, payload := "a" },
                              { expired := some true, payload := "b" },
                              { expired := none, payload := "c" }] :
            Option (List HistoryEntry)).getD []).filter
              (fun f => !(f.expired.getD false)) ∧
        ∀ f ∈ r.forecasts, f.expired.getD false = false) :=
  get_forecast_history_filtering _ "Paris" 10 false (by simp)
    (by unfold list_forecasts_contract; simp)

/-- C8: when `WEATHER_AGENT_URL` is not configured (falsy), the trigger is a
pure no-op: it returns normally with only the configuration warning logged,
starts no background work, and dispatches no session-creation or
message-submission call. -/
theorem trigger_noop_when_unconfigured (env : HttpEnv) (s : AgentSettings)
    (city : String) (language : Option String)
    (h : pyTruthy s.WEATHER_AGENT_URL = false) :
    trigger_forecast_preparation env s city language =
      Except.ok { background := none
                  warnings :=
                    ["WEATHER_AGENT_URL not configured, skipping forecast preparation"] } := by
  unfold trigger_forecast_preparation
  simp [h]

theorem trigger_noop_when_unconfigured_witness :
    trigger_forecast_preparation
        { post := fun _ => Except.error (Exc.other "network down")
          threadStart := Except.error (Exc.other "cannot start thread") }
        { WEATHER_AGENT_URL := none } "Paris" none =
      Except.ok { background := none
                  warnings :=
                    ["WEATHER_AGENT_URL not configured, skipping forecast preparation"] } :=
  trigger_noop_when_unconfigured _ _ "Paris" none rfl

/-- C9: `test_connection` never raises: whatever the connection attempt, the
queries and the close calls do, it returns a dict whose `status` is
`"success"` (with `connected = true` and no error message) or `"error"`
(with `connected = false` and the error message). -/
theorem test_connection_total (env : DbEnv) (instName db : Option String) :
    ((test_connection env instName db).status = "success" ∧
      (test_connection env instName db).connected = true ∧
      (test_connection env instName db).error = none) ∨
    ((test_connection env instName db).status = "error" ∧
      (test_connection env instName db).connected = false ∧
      ∃ m, (test_connection env instName db).error = some m) := by
  unfold test_connection
  cases h : test_connection_body env with
  | ok v =>
    obtain ⟨version, tableExists⟩ := v
    left
    simp [h]
  | error e =>
    right
    simp [h]

/-- C10: once the global connector exists, `get_connector` returns that very
instance and leaves the globals unchanged; `close_connector` resets the
global to `None`; and the `get_connector` call after a close allocates a
fresh connector, distinct from any previously held one. -/
theorem connector_idempotent_and_resettable (g : ConnectorGlobals) :
    (∀ c, g.connector = some c → get_connector g = (c, g)) ∧
    (close_connector g).connector = none ∧
    get_connector (close_connector g) =
      (g.nextId, { connector := some g.nextId, nextId := g.nextId + 1 }) ∧
    (∀ c, g.connector = some c → c < g.nextId →
      (get_connector (close_connector g)).1 ≠ c) := by
  obtain ⟨oc, n⟩ := g
  refine ⟨?_, ?_, ?_, ?_⟩
  · intro c hc
    simp only at hc
    subst hc
    rfl
  · cases oc <;> rfl
  · cases oc <;> rfl
  · intro c hc hlt
    have h1 : (get_connector (close_connector ⟨oc, n⟩)).1 = n := by
      cases oc <;> rfl
    rw [h1]
    dsimp only at hlt
    omega

theorem connector_idempotent_and_resettable_witness :
    get_connector { connector := some 5, nextId := 6 } =
      (5, { connector := some 5, nextId := 6 }) ∧
    (get_connector (close_connector { connector := some 5, nextId := 6 })).1 ≠ 5 :=
  ⟨(connector_idempotent_and_resettable ⟨some 5, 6⟩).1 5 rfl,
   (connector_idempotent_and_resettable ⟨some 5, 6⟩).2.2.2 5 rfl (by decide)⟩
